import Mathlib

/-!
Verification of the cshatag-md5 integrity checker (src/check.go) against its
specification.  The Go source is shallowly embedded below: machine integers
become `Nat` (with explicit bounds / `% 2^w` where the width matters), Go
byte slices and strings become `List Char`, fallible operations return
`Option`, and the ambient filesystem state (extended attributes, mtimes,
hashing outcomes, I/O failures) is passed explicitly as records.
-/

namespace CshatagMd5

/-- Go `type fileTimestamp struct { s uint64; ns uint32 }`.  The fields are
modelled as `Nat`; theorems that depend on the machine widths carry the
bounds `s < 2^64` and `ns < 2^32` explicitly. -/
structure fileTimestamp where
  s : Nat
  ns : Nat
deriving DecidableEq

/-- Go `zeroFileTimeStamp()`. -/
def zeroFileTimeStamp : fileTimestamp := ⟨0, 0⟩

/-! ### Decimal formatting (`fmt.Sprintf("%010d.%09d", ts.s, ts.ns)`) -/

/-- Big-endian decimal digit list of `n` (empty for `0`), computed with
explicit fuel so that it is structurally recursive and evaluates in the
kernel.  `decRepr n` uses fuel `n`, which is always sufficient. -/
def decReprAux : Nat → Nat → List Nat
  | 0, _ => []
  | fuel + 1, n => if n = 0 then [] else decReprAux fuel (n / 10) ++ [n % 10]

/-- Big-endian decimal digits of `n` (empty for `0`). -/
def decRepr (n : Nat) : List Nat := decReprAux n n

/-- The ASCII character of a decimal digit. -/
def digitToChar (d : Nat) : Char := Char.ofNat (48 + d)

/-- Left-pad a digit list with zeros to width `w` (the `%010d` / `%09d`
padding of Go's `fmt`). -/
def padZeroLeft (w : Nat) (ds : List Nat) : List Nat :=
  List.replicate (w - ds.length) 0 ++ ds

/-- `fmt.Sprintf("%0<w>d", n)`: decimal representation of `n`, left-padded
with `'0'` to at least `w` characters. -/
def formatPadded (w n : Nat) : List Char :=
  (padZeroLeft w (decRepr n)).map digitToChar

/-- Go `(*fileTimestamp).prettyPrint`, i.e.
`fmt.Sprintf("%010d.%09d", ts.s, ts.ns)`. -/
def prettyPrint (ts : fileTimestamp) : List Char :=
  formatPadded 10 ts.s ++ '.' :: formatPadded 9 ts.ns

/-! ### Decimal parsing (`strconv.ParseUint(s, 10, bits)`)

Go's `strconv.ParseUint` with base 10 returns, together with an error that
the source discards with `_`:
* `0` when the input is empty or contains a non-digit rune (syntax error);
* `2^bits - 1` when the input is a digit string whose value does not fit in
  `bits` bits (documented `ErrRange` behaviour: "the returned value is the
  maximum magnitude integer of the appropriate bitSize");
* the value itself otherwise. -/

/-- The numeric value of a decimal digit character, `none` for non-digits. -/
def charToDigit? (c : Char) : Option Nat :=
  if '0' ≤ c ∧ c ≤ '9' then some (c.toNat - 48) else none

/-- One accumulation step of decimal parsing; any non-digit poisons the
accumulator. -/
def stepD (acc : Option Nat) (c : Char) : Option Nat :=
  match acc, charToDigit? c with
  | some n, some d => some (n * 10 + d)
  | _, _ => none

/-- The value denoted by a decimal digit string; `none` on the empty string
or on any non-digit character (Go syntax error). -/
def decValue? (cs : List Char) : Option Nat :=
  match cs with
  | [] => none
  | _ => cs.foldl stepD (some 0)

/-- `strconv.ParseUint(cs, 10, bits)` with the error discarded, as the
source does (`v, _ := strconv.ParseUint(...)`). -/
def parseUint (cs : List Char) (bits : Nat) : Nat :=
  match decValue? cs with
  | none => 0
  | some n => if n < 2 ^ bits then n else 2 ^ bits - 1

/-- Go `strings.SplitN(s, ".", 2)`: the part before the first `'.'`, and
(when a `'.'` occurs) the remainder after it. -/
def splitN2 : List Char → List Char × Option (List Char)
  | [] => ([], none)
  | c :: rest =>
      if c = '.' then ([], some rest)
      else
        let p := splitN2 rest
        (c :: p.1, p.2)

/-- The timestamp-parsing fragment of `getStoredAttrSha256` /
`getStoredAttrMd5` (check.go lines 79-84 / 97-102): split on the first
`'.'`, parse seconds as unsigned 64-bit, parse the remainder (when present)
as unsigned 32-bit and cast to `uint32`; a missing remainder leaves the
nanosecond field at its zero value. -/
def parseTs (cs : List Char) : fileTimestamp :=
  let p := splitN2 cs
  { s := parseUint p.1 64
    ns :=
      match p.2 with
      | some frac => parseUint frac 32 % 2 ^ 32
      | none => 0 }

/-! ### File attributes and the stored-attribute codec -/

/-- Go constant `zeroSha256`: 64 `'0'` characters. -/
def zeroSha256 : List Char := List.replicate 64 '0'

/-- Go constant `zeroMd5`: 32 `'0'` characters. -/
def zeroMd5 : List Char := List.replicate 32 '0'

/-- Go `type fileAttr struct`.  Go's zero value for the struct has both
timestamps zero and both digest slices nil (modelled as `[]`). -/
structure fileAttr where
  ts : fileTimestamp
  tsMd5 : fileTimestamp
  sha256 : List Char
  md5 : List Char
deriving DecidableEq

/-- The Go zero value of `fileAttr`. -/
def emptyFileAttr : fileAttr :=
  { ts := zeroFileTimeStamp, tsMd5 := zeroFileTimeStamp, sha256 := [], md5 := [] }

/-- Go `copy(dst, src)` on byte slices: overwrite the first
`min (length dst) (length src)` positions of `dst` with the corresponding
bytes of `src`, keeping the rest of `dst`. -/
def goCopy (dst src : List Char) : List Char :=
  src.take dst.length ++ dst.drop (min dst.length src.length)

/-- The extended-attribute state of one file: the four `user.shatag.*`
attributes.  `none` models `xattr.FGet` returning an error (the attribute is
absent, or any other read failure — the source treats every non-nil error
identically by skipping the assignment). -/
structure XattrState where
  sha256 : Option (List Char)
  tsSha256 : Option (List Char)
  md5 : Option (List Char)
  tsMd5 : Option (List Char)
deriving DecidableEq

/-- The error outcomes `getActualAttr*` can produce: `syscall.EINPROGRESS`
for a detected concurrent modification, and any other non-nil error. -/
inductive GoErr
  | einprogress
  | other
deriving DecidableEq

/-- Go `getStoredAttrSha256`: pre-fill the sha256 digest with the zero
digest, overlay the stored attribute value with `copy`, parse the stored
timestamp text; every read failure is swallowed and the function always
returns a nil error. -/
def getStoredAttrSha256 (x : XattrState) : fileAttr × Option GoErr :=
  let a0 := { emptyFileAttr with sha256 := zeroSha256 }
  let a1 :=
    match x.sha256 with
    | some val => { a0 with sha256 := goCopy a0.sha256 val }
    | none => a0
  let a2 :=
    match x.tsSha256 with
    | some val => { a1 with ts := parseTs val }
    | none => a1
  (a2, none)

/-- Go `getStoredAttrMd5` (the MD5 twin of `getStoredAttrSha256`). -/
def getStoredAttrMd5 (x : XattrState) : fileAttr × Option GoErr :=
  let a0 := { emptyFileAttr with md5 := zeroMd5 }
  let a1 :=
    match x.md5 with
    | some val => { a0 with md5 := goCopy a0.md5 val }
    | none => a0
  let a2 :=
    match x.tsMd5 with
    | some val => { a1 with tsMd5 := parseTs val }
    | none => a1
  (a2, none)

/-- Go `getStoredAttr`. -/
def getStoredAttr (bMd5 : Bool) (x : XattrState) : fileAttr × Option GoErr :=
  if bMd5 then getStoredAttrMd5 x else getStoredAttrSha256 x

/-! ### Hash engine (`getActualAttr*`)

The filesystem environment observed by one check of one file: the mtime
sampled before hashing, the mtime sampled after hashing, the hex digest the
hash engine would produce for the streamed content, and which of the three
I/O operations (first `Stat`, the content read, second `Stat`) fail. -/

structure FileEnv where
  mtime1 : fileTimestamp
  mtime2 : fileTimestamp
  hashSha256 : List Char
  hashMd5 : List Char
  statErr1 : Bool
  readErr : Bool
  statErr2 : Bool
deriving DecidableEq

/-- Go `getActualAttrSha256`: pre-fill the digest with the zero digest,
sample the mtime, stream the content, sample the mtime again; if the two
samples differ return `syscall.EINPROGRESS` with the digest still zero,
otherwise return the computed digest with the first sample. -/
def getActualAttrSha256 (env : FileEnv) : fileAttr × Option GoErr :=
  let a0 := { emptyFileAttr with sha256 := zeroSha256 }
  if env.statErr1 then (a0, some GoErr.other)
  else
    let a1 := { a0 with ts := env.mtime1 }
    if env.readErr then (a1, some GoErr.other)
    else if env.statErr2 then (a1, some GoErr.other)
    else if env.mtime1 ≠ env.mtime2 then (a1, some GoErr.einprogress)
    else ({ a1 with sha256 := env.hashSha256 }, none)

/-- Go `getActualAttrMd5` (the MD5 twin of `getActualAttrSha256`). -/
def getActualAttrMd5 (env : FileEnv) : fileAttr × Option GoErr :=
  let a0 := { emptyFileAttr with md5 := zeroMd5 }
  if env.statErr1 then (a0, some GoErr.other)
  else
    let a1 := { a0 with tsMd5 := env.mtime1 }
    if env.readErr then (a1, some GoErr.other)
    else if env.statErr2 then (a1, some GoErr.other)
    else if env.mtime1 ≠ env.mtime2 then (a1, some GoErr.einprogress)
    else ({ a1 with md5 := env.hashMd5 }, none)

/-- Go `getActualAttr`. -/
def getActualAttr (bMd5 : Bool) (env : FileEnv) : fileAttr × Option GoErr :=
  if bMd5 then getActualAttrMd5 env else getActualAttrSha256 env

/-! ### Field matchers -/

/-- Go `timesMatch`. -/
def timesMatch (bMd5 : Bool) (stored actual : fileAttr) : Bool :=
  if bMd5 ∧ stored.tsMd5 = actual.tsMd5 then true
  else if ¬bMd5 ∧ stored.ts = actual.ts then true
  else false

/-- Go `timesMatchZero`. -/
def timesMatchZero (bMd5 : Bool) (attr : fileAttr) : Bool :=
  if bMd5 ∧ attr.tsMd5 = zeroFileTimeStamp then true
  else if ¬bMd5 ∧ attr.ts = zeroFileTimeStamp then true
  else false

/-- Go `checksumsMatch` (`bytes.Equal` on the selected digest). -/
def checksumsMatch (bMd5 : Bool) (stored actual : fileAttr) : Bool :=
  if bMd5 ∧ stored.md5 = actual.md5 then true
  else if ¬bMd5 ∧ stored.sha256 = actual.sha256 then true
  else false

/-- Go `bytesMatchZero`. -/
def bytesMatchZero (bMd5 : Bool) (attr : fileAttr) : Bool :=
  if bMd5 ∧ attr.md5 = zeroMd5 then true
  else if ¬bMd5 ∧ attr.sha256 = zeroSha256 then true
  else false

/-! ### Filename checksum extraction -/

/-- The character class `[0-9a-fA-F]` of the Go regexps. -/
def isHexDigit (c : Char) : Bool :=
  (('0' ≤ c && c ≤ '9') || ('a' ≤ c && c ≤ 'f') || ('A' ≤ c && c ≤ 'F'))

/-- `regexp.MustCompile("[0-9a-fA-F]{32}").FindString`: the 32 characters
starting at the leftmost position where 32 consecutive hex digits begin, or
the empty string when there is no such position. -/
def findRun32 : List Char → List Char
  | [] => []
  | c :: rest =>
      let window := (c :: rest).take 32
      if window.length = 32 ∧ window.all isHexDigit then window
      else findRun32 rest

/-- `regexp.MustCompile("[0-9a-fA-F]").FindString`: the first hex digit of
the string as a one-character string, or the empty string. -/
def findFirstHex : List Char → List Char
  | [] => []
  | c :: rest => if isHexDigit c then [c] else findFirstHex rest

/-- Go `extractChecksumFromFilename` (the `bMd5` argument is unused in the
source as well; only the length argument selects the regexp). -/
def extractChecksumFromFilename (bMd5 : Bool) (fn : List Char) (len : Nat) :
    List Char :=
  if len = 32 then findRun32 fn else findFirstHex fn

/-- Go `filepath.Base` on Unix: `"."` for the empty path, otherwise strip
trailing separators, keep what follows the last separator, and produce
`"/"` when the path consisted only of separators. -/
def basename (p : List Char) : List Char :=
  if p = [] then ['.']
  else
    let p1 := (p.reverse.dropWhile (fun c => c = '/')).reverse
    if p1 = [] then ['/']
    else (p1.reverse.takeWhile (fun c => c ≠ '/')).reverse

/-- Go `checkFilename`: extract a checksum from the base name and compare it
byte-for-byte with the selected digest of `actual`. -/
def checkFilename (bMd5 : Bool) (pathFile : List Char) (actual : fileAttr) :
    Bool :=
  let fn := basename pathFile
  let hash :=
    if bMd5 then extractChecksumFromFilename bMd5 fn 32
    else extractChecksumFromFilename bMd5 fn 0
  if bMd5 then
    if hash = actual.md5 then true else false
  else
    if hash = actual.sha256 then true else false

/-! ### The per-file check (`checkFile`) -/

/-- The global counters the source increments (`stats`), as the delta
contributed by a single `checkFile` call. -/
structure Stats where
  total : Nat
  errorsOpening : Nat
  errorsOther : Nat
  ok : Nat
  inprogress : Nat
  corrupt : Nat
  timechange : Nat
  newfile : Nat
  outdated : Nat
  errorsWritingXattr : Nat
deriving DecidableEq

/-- The all-zero counter delta. -/
def zeroStats : Stats := ⟨0, 0, 0, 0, 0, 0, 0, 0, 0, 0⟩

/-- The observable verdict a single `checkFile` call reaches, one per exit
path of the source function. -/
inductive Verdict
  | openError
  | removed
  | removeError
  | filenameOnlyOk
  | filenameOnlyMismatch
  | concurrentModification
  | readError
  | filenameNotMatched
  | ok
  | corrupt
  | timechange
  | newfile
  | outdated
deriving DecidableEq

/-- The result of one `checkFile` call: the verdict, the counter delta, and
which effects happened (`computedActual`: `getActualAttr` was invoked, i.e.
content hashing was attempted; `storeAttempted` / `storeFailed`: the
`storeAttr` persistence call and its outcome). -/
structure CheckResult where
  verdict : Verdict
  stats : Stats
  computedActual : Bool
  storeAttempted : Bool
  storeFailed : Bool
deriving DecidableEq

/-- The mode flags `checkFile` consults: `args.remove`, `gBOnlyFilename` and
`gBCheckFilename` (set by the CLI driver outside this file). -/
structure Flags where
  remove : Bool
  onlyFilename : Bool
  checkFilename : Bool
deriving DecidableEq

/-- The environment of one `checkFile` call: whether `os.Open` fails, the
extended-attribute state, the hash-engine environment, and whether the
(externally defined) `removeAttr` / `storeAttr` calls fail. -/
structure CheckEnv where
  openErr : Bool
  xattrs : XattrState
  fileEnv : FileEnv
  removeErr : Bool
  storeErr : Bool
deriving DecidableEq

/-- The common tail of the Corrupt / TimeChanged / New / Outdated branches
of `checkFile`: attempt `storeAttr`; a failure increments
`stats.errorsWritingXattr` and leaves the verdict as already decided. -/
def finishStore (v : Verdict) (st : Stats) (storeErr : Bool) : CheckResult :=
  if storeErr then
    { verdict := v, stats := { st with errorsWritingXattr := 1 },
      computedActual := true, storeAttempted := true, storeFailed := true }
  else
    { verdict := v, stats := st,
      computedActual := true, storeAttempted := true, storeFailed := false }

/-- Go `checkFile`, with printing omitted (the quiet flags only gate output)
and each exit path recorded as a `CheckResult`. -/
def checkFile (bMd5 : Bool) (fn : List Char) (flags : Flags)
    (env : CheckEnv) : CheckResult :=
  let st0 := { zeroStats with total := 1 }
  if env.openErr then
    { verdict := Verdict.openError, stats := { st0 with errorsOpening := 1 },
      computedActual := false, storeAttempted := false, storeFailed := false }
  else if flags.remove then
    if env.removeErr then
      { verdict := Verdict.removeError, stats := { st0 with errorsOther := 1 },
        computedActual := false, storeAttempted := false, storeFailed := false }
    else
      { verdict := Verdict.removed, stats := { st0 with ok := 1 },
        computedActual := false, storeAttempted := false, storeFailed := false }
  else
    let stored := (getStoredAttr bMd5 env.xattrs).1
    if flags.onlyFilename then
      if checkFilename bMd5 fn stored then
        { verdict := Verdict.filenameOnlyOk, stats := st0,
          computedActual := false, storeAttempted := false, storeFailed := false }
      else
        { verdict := Verdict.filenameOnlyMismatch, stats := st0,
          computedActual := false, storeAttempted := false, storeFailed := false }
    else
      let res := getActualAttr bMd5 env.fileEnv
      let actual := res.1
      match res.2 with
      | some GoErr.einprogress =>
          { verdict := Verdict.concurrentModification,
            stats := { st0 with inprogress := 1 },
            computedActual := true, storeAttempted := false, storeFailed := false }
      | some GoErr.other =>
          { verdict := Verdict.readError, stats := { st0 with errorsOther := 1 },
            computedActual := true, storeAttempted := false, storeFailed := false }
      | none =>
          if timesMatch bMd5 stored actual then
            if checksumsMatch bMd5 stored actual then
              if flags.checkFilename ∧ ¬checkFilename bMd5 fn actual then
                { verdict := Verdict.filenameNotMatched, stats := st0,
                  computedActual := true, storeAttempted := false,
                  storeFailed := false }
              else
                { verdict := Verdict.ok, stats := { st0 with ok := 1 },
                  computedActual := true, storeAttempted := false,
                  storeFailed := false }
            else
              finishStore Verdict.corrupt { st0 with corrupt := 1 } env.storeErr
          else if checksumsMatch bMd5 stored actual then
            finishStore Verdict.timechange { st0 with timechange := 1 }
              env.storeErr
          else if bytesMatchZero bMd5 stored ∧ timesMatchZero bMd5 stored then
            finishStore Verdict.newfile { st0 with newfile := 1 } env.storeErr
          else
            finishStore Verdict.outdated { st0 with outdated := 1 } env.storeErr

/-! ## Lemmas about decimal formatting and parsing -/

theorem decReprAux_lt10 (fuel : Nat) :
    ∀ n d, d ∈ decReprAux fuel n → d < 10 := by
  induction fuel with
  | zero => intro n d h; simp [decReprAux] at h
  | succ fuel ih =>
      intro n d h
      by_cases hn : n = 0
      · simp [decReprAux, hn] at h
      · simp only [decReprAux, if_neg hn, List.mem_append,
          List.mem_singleton] at h
        rcases h with h | h
        · exact ih _ _ h
        · subst h; exact Nat.mod_lt _ (by norm_num)

theorem decReprAux_foldl (fuel : Nat) :
    ∀ n a, n ≤ fuel →
      (decReprAux fuel n).foldl (fun x d => x * 10 + d) a =
        a * 10 ^ (decReprAux fuel n).length + n := by
  induction fuel with
  | zero =>
      intro n a h
      interval_cases n
      simp [decReprAux]
  | succ fuel ih =>
      intro n a h
      by_cases hn : n = 0
      · subst hn; simp [decReprAux]
      · have hdiv : n / 10 ≤ fuel := by
          have : n / 10 < n := Nat.div_lt_self (Nat.pos_of_ne_zero hn) (by norm_num)
          omega
        simp only [decReprAux, if_neg hn, List.foldl_append, List.length_append,
          List.foldl_cons, List.foldl_nil, List.length_cons, List.length_nil]
        rw [ih _ a hdiv, Nat.pow_succ, ← Nat.mul_assoc]
        generalize a * 10 ^ (decReprAux fuel (n / 10)).length = m
        omega

theorem decRepr_lt10 (n : Nat) : ∀ d ∈ decRepr n, d < 10 :=
  fun d h => decReprAux_lt10 n n d h

theorem decRepr_foldl (n a : Nat) :
    (decRepr n).foldl (fun x d => x * 10 + d) a =
      a * 10 ^ (decRepr n).length + n :=
  decReprAux_foldl n n a le_rfl

theorem charToDigit_digitToChar : ∀ d, d < 10 →
    charToDigit? (digitToChar d) = some d := by decide

theorem digitToChar_ne_dot : ∀ d, d < 10 → digitToChar d ≠ '.' := by decide

theorem foldl_stepD_map (ds : List Nat) :
    ∀ a, (∀ d ∈ ds, d < 10) →
      (ds.map digitToChar).foldl stepD (some a) =
        some (ds.foldl (fun x d => x * 10 + d) a) := by
  induction ds with
  | nil => intro a _; rfl
  | cons d ds ih =>
      intro a h
      have hd : d < 10 := h d (List.mem_cons_self d ds)
      have hstep : stepD (some a) (digitToChar d) = some (a * 10 + d) := by
        simp [stepD, charToDigit_digitToChar d hd]
      simp only [List.map_cons, List.foldl_cons, hstep]
      exact ih (a * 10 + d) fun e he => h e (List.mem_cons_of_mem d he)

theorem padZeroLeft_lt10 (w : Nat) (ds : List Nat) (h : ∀ d ∈ ds, d < 10) :
    ∀ d ∈ padZeroLeft w ds, d < 10 := by
  intro d hd
  simp only [padZeroLeft, List.mem_append, List.mem_replicate] at hd
  rcases hd with hd | hd
  · omega
  · exact h d hd

theorem foldl_replicate_zero (k : Nat) :
    ∀ a : Nat, (List.replicate k (0 : Nat)).foldl (fun x d => x * 10 + d) a =
      a * 10 ^ k := by
  induction k with
  | zero => intro a; simp
  | succ k ih =>
      intro a
      simp only [List.replicate_succ, List.foldl_cons]
      rw [ih]
      ring

theorem padZeroLeft_foldl (w n : Nat) :
    (padZeroLeft w (decRepr n)).foldl (fun x d => x * 10 + d) 0 = n := by
  simp only [padZeroLeft, List.foldl_append]
  rw [foldl_replicate_zero, decRepr_foldl]
  ring

theorem decValue?_eq_foldl (cs : List Char) (h : cs ≠ []) :
    decValue? cs = cs.foldl stepD (some 0) := by
  cases cs with
  | nil => exact absurd rfl h
  | cons c rest => rfl

theorem formatPadded_ne_nil (w n : Nat) (hw : 0 < w) :
    formatPadded w n ≠ [] := by
  simp only [formatPadded, padZeroLeft]
  intro h
  have := congrArg List.length h
  simp only [List.length_map, List.length_append, List.length_replicate,
    List.length_nil] at this
  omega

theorem decValue?_formatPadded (w n : Nat) (hw : 0 < w) :
    decValue? (formatPadded w n) = some n := by
  rw [decValue?_eq_foldl _ (formatPadded_ne_nil w n hw)]
  unfold formatPadded
  rw [foldl_stepD_map _ 0 (padZeroLeft_lt10 w _ (decRepr_lt10 n))]
  rw [padZeroLeft_foldl]

theorem parseUint_formatPadded (w n bits : Nat) (hw : 0 < w)
    (hn : n < 2 ^ bits) : parseUint (formatPadded w n) bits = n := by
  unfold parseUint
  rw [decValue?_formatPadded w n hw]
  simp [hn]

theorem dot_not_mem_formatPadded (w n : Nat) :
    '.' ∉ formatPadded w n := by
  intro h
  simp only [formatPadded, List.mem_map] at h
  obtain ⟨d, hd, hdot⟩ := h
  exact digitToChar_ne_dot d
    (padZeroLeft_lt10 w _ (decRepr_lt10 n) d hd) hdot

theorem splitN2_append (A B : List Char) (h : '.' ∉ A) :
    splitN2 (A ++ '.' :: B) = (A, some B) := by
  induction A with
  | nil => simp [splitN2]
  | cons c A ih =>
      have hc : c ≠ '.' := fun hc => h (hc ▸ List.mem_cons_self c A)
      have hA : '.' ∉ A := fun hA => h (List.mem_cons_of_mem c hA)
      simp only [List.cons_append, splitN2, if_neg hc, List.append_eq, ih hA]

/-- Claim C5: for every timestamp value (seconds unsigned 64-bit,
nanoseconds unsigned 32-bit), including the zero timestamp, parsing the
canonical zero-padded text produced by `prettyPrint` recovers exactly the
original pair: `parse (format ts) = ts`. -/
theorem C5_timestamp_roundtrip (ts : fileTimestamp)
    (hs : ts.s < 2 ^ 64) (hns : ts.ns < 2 ^ 32) :
    parseTs (prettyPrint ts) = ts := by
  unfold prettyPrint parseTs
  rw [splitN2_append _ _ (dot_not_mem_formatPadded 10 ts.s)]
  simp only
  rw [parseUint_formatPadded 10 ts.s 64 (by norm_num) hs,
    parseUint_formatPadded 9 ts.ns 32 (by norm_num) hns,
    Nat.mod_eq_of_lt hns]

/-- Witness for C5 at the zero timestamp. -/
theorem C5_timestamp_roundtrip_witness :
    ((0 : Nat) < 2 ^ 64 ∧ (0 : Nat) < 2 ^ 32) ∧
      parseTs (prettyPrint ⟨0, 0⟩) = ⟨0, 0⟩ :=
  ⟨⟨by norm_num, by norm_num⟩,
    C5_timestamp_roundtrip ⟨0, 0⟩ (by norm_num) (by norm_num)⟩

/-! ## Stored-attribute robustness (C4, C10) -/

theorem parseTs_s_none (cs : List Char)
    (h : decValue? (splitN2 cs).1 = none) : (parseTs cs).s = 0 := by
  simp [parseTs, parseUint, h]

theorem parseTs_s_sat (cs : List Char) (n : Nat)
    (h : decValue? (splitN2 cs).1 = some n) (hr : 2 ^ 64 ≤ n) :
    (parseTs cs).s = 2 ^ 64 - 1 := by
  simp only [parseTs, parseUint, h]
  rw [if_neg (Nat.not_lt.mpr hr)]

theorem parseTs_ns_nofrac (cs : List Char)
    (h : (splitN2 cs).2 = none) : (parseTs cs).ns = 0 := by
  simp [parseTs, h]

theorem parseTs_ns_badfrac (cs frac : List Char)
    (h : (splitN2 cs).2 = some frac) (hb : decValue? frac = none) :
    (parseTs cs).ns = 0 := by
  simp [parseTs, parseUint, h, hb]

/-- Claim C4, amended: reading stored attributes never fails the caller
(nil error always); a missing digest or timestamp attribute leaves the
corresponding field at its zero value; a syntactically malformed or missing
timestamp text field defaults to 0; but a numerically out-of-range seconds
field saturates to `2^64 - 1` (Go `strconv.ParseUint` range behaviour)
rather than defaulting to 0. -/
theorem C4_stored_read_never_fails (x : XattrState) :
    ((getStoredAttrSha256 x).2 = none ∧
     (x.sha256 = none → (getStoredAttrSha256 x).1.sha256 = zeroSha256) ∧
     (x.tsSha256 = none → (getStoredAttrSha256 x).1.ts = zeroFileTimeStamp) ∧
     (∀ val, x.tsSha256 = some val → decValue? (splitN2 val).1 = none →
        (getStoredAttrSha256 x).1.ts.s = 0) ∧
     (∀ val, x.tsSha256 = some val → (splitN2 val).2 = none →
        (getStoredAttrSha256 x).1.ts.ns = 0) ∧
     (∀ val frac, x.tsSha256 = some val → (splitN2 val).2 = some frac →
        decValue? frac = none → (getStoredAttrSha256 x).1.ts.ns = 0) ∧
     (∀ val n, x.tsSha256 = some val → decValue? (splitN2 val).1 = some n →
        2 ^ 64 ≤ n → (getStoredAttrSha256 x).1.ts.s = 2 ^ 64 - 1)) ∧
    ((getStoredAttrMd5 x).2 = none ∧
     (x.md5 = none → (getStoredAttrMd5 x).1.md5 = zeroMd5) ∧
     (x.tsMd5 = none → (getStoredAttrMd5 x).1.tsMd5 = zeroFileTimeStamp) ∧
     (∀ val, x.tsMd5 = some val → decValue? (splitN2 val).1 = none →
        (getStoredAttrMd5 x).1.tsMd5.s = 0) ∧
     (∀ val, x.tsMd5 = some val → (splitN2 val).2 = none →
        (getStoredAttrMd5 x).1.tsMd5.ns = 0) ∧
     (∀ val frac, x.tsMd5 = some val → (splitN2 val).2 = some frac →
        decValue? frac = none → (getStoredAttrMd5 x).1.tsMd5.ns = 0) ∧
     (∀ val n, x.tsMd5 = some val → decValue? (splitN2 val).1 = some n →
        2 ^ 64 ≤ n → (getStoredAttrMd5 x).1.tsMd5.s = 2 ^ 64 - 1)) := by
  obtain ⟨xs, xt, xm, xtm⟩ := x
  constructor
  · refine ⟨rfl, ?_, ?_, ?_, ?_, ?_, ?_⟩
    · intro h; subst h; cases xt <;> rfl
    · intro h; subst h; cases xs <;> rfl
    · intro val hv hbad; subst hv
      have he : (getStoredAttrSha256 ⟨xs, some val, xm, xtm⟩).1.ts
          = parseTs val := by cases xs <;> rfl
      rw [he]; exact parseTs_s_none _ hbad
    · intro val hv hfr; subst hv
      have he : (getStoredAttrSha256 ⟨xs, some val, xm, xtm⟩).1.ts
          = parseTs val := by cases xs <;> rfl
      rw [he]; exact parseTs_ns_nofrac _ hfr
    · intro val frac hv hfr hb; subst hv
      have he : (getStoredAttrSha256 ⟨xs, some val, xm, xtm⟩).1.ts
          = parseTs val := by cases xs <;> rfl
      rw [he]; exact parseTs_ns_badfrac _ _ hfr hb
    · intro val n hv hval hr; subst hv
      have he : (getStoredAttrSha256 ⟨xs, some val, xm, xtm⟩).1.ts
          = parseTs val := by cases xs <;> rfl
      rw [he]; exact parseTs_s_sat _ _ hval hr
  · refine ⟨rfl, ?_, ?_, ?_, ?_, ?_, ?_⟩
    · intro h; subst h; cases xtm <;> rfl
    · intro h; subst h; cases xm <;> rfl
    · intro val hv hbad; subst hv
      have he : (getStoredAttrMd5 ⟨xs, xt, xm, some val⟩).1.tsMd5
          = parseTs val := by cases xm <;> rfl
      rw [he]; exact parseTs_s_none _ hbad
    · intro val hv hfr; subst hv
      have he : (getStoredAttrMd5 ⟨xs, xt, xm, some val⟩).1.tsMd5
          = parseTs val := by cases xm <;> rfl
      rw [he]; exact parseTs_ns_nofrac _ hfr
    · intro val frac hv hfr hb; subst hv
      have he : (getStoredAttrMd5 ⟨xs, xt, xm, some val⟩).1.tsMd5
          = parseTs val := by cases xm <;> rfl
      rw [he]; exact parseTs_ns_badfrac _ _ hfr hb
    · intro val n hv hval hr; subst hv
      have he : (getStoredAttrMd5 ⟨xs, xt, xm, some val⟩).1.tsMd5
          = parseTs val := by cases xm <;> rfl
      rw [he]; exact parseTs_s_sat _ _ hval hr

/-- A stored timestamp text denoting a value above the unsigned 64-bit
range: twenty `'9'` characters. -/
def badTsText : List Char := List.replicate 20 '9'

/-- An xattr state whose stored sha256 timestamp is `badTsText`. -/
def x4bad : XattrState := ⟨none, some badTsText, none, none⟩

/-- Claim C4, counterexample: the stored timestamp text
`"99999999999999999999"` denotes `10^20 - 1`, which exceeds the unsigned
64-bit range — so it cannot be parsed as an unsigned 64-bit integer — yet
the loaded seconds field is `2^64 - 1`, not the claimed default `0`. -/
theorem C4_counterexample :
    decValue? (splitN2 badTsText).1 = some (10 ^ 20 - 1) ∧
    2 ^ 64 ≤ 10 ^ 20 - 1 ∧
    (getStoredAttrSha256 x4bad).1.ts.s = 2 ^ 64 - 1 ∧
    (getStoredAttrSha256 x4bad).1.ts.s ≠ 0 := by
  decide

/-- The empty xattr state: no attribute is present. -/
def xNone : XattrState := ⟨none, none, none, none⟩

/-- Witness for the amended C4 at concrete xattr states. -/
theorem C4_stored_read_never_fails_witness :
    (getStoredAttrSha256 xNone).2 = none ∧
    (getStoredAttrSha256 xNone).1.sha256 = zeroSha256 ∧
    (getStoredAttrMd5 xNone).1.md5 = zeroMd5 ∧
    (getStoredAttrSha256 x4bad).1.ts.s = 2 ^ 64 - 1 := by
  obtain ⟨h1, h2, -, -, -, -, -⟩ := (C4_stored_read_never_fails xNone).1
  obtain ⟨-, m2, -, -, -, -, -⟩ := (C4_stored_read_never_fails xNone).2
  obtain ⟨-, -, -, -, -, -, s7⟩ := (C4_stored_read_never_fails x4bad).1
  exact ⟨h1, h2 rfl, m2 rfl,
    s7 badTsText (10 ^ 20 - 1) rfl (by decide) (by decide)⟩

theorem zeroSha256_def : zeroSha256 = List.replicate 64 '0' := rfl

theorem zeroMd5_def : zeroMd5 = List.replicate 32 '0' := rfl

theorem goCopy_zero (w : Nat) (val : List Char) :
    goCopy (List.replicate w '0') val =
      val.take w ++ List.replicate (w - val.length) '0' := by
  unfold goCopy
  rw [List.length_replicate, List.drop_replicate]
  have h : w - min w val.length = w - val.length := by omega
  rw [h]

theorem goCopy_zero_length (w : Nat) (val : List Char) :
    (goCopy (List.replicate w '0') val).length = w := by
  rw [goCopy_zero]
  simp only [List.length_append, List.length_take, List.length_replicate]
  omega

/-- Claim C10: the digest field loaded from the extended attribute always
has exactly the selected algorithm's width (64 for SHA-256, 32 for MD5):
the stored value is copied over a pre-filled zero-digest buffer, so a
shorter stored value keeps the trailing `'0'` characters and a longer one
is truncated to the width. -/
theorem C10_stored_digest_width (x : XattrState) :
    ((getStoredAttrSha256 x).1.sha256.length = 64 ∧
     (x.sha256 = none → (getStoredAttrSha256 x).1.sha256 = zeroSha256) ∧
     (∀ val, x.sha256 = some val →
        (getStoredAttrSha256 x).1.sha256 =
          val.take 64 ++ List.replicate (64 - val.length) '0')) ∧
    ((getStoredAttrMd5 x).1.md5.length = 32 ∧
     (x.md5 = none → (getStoredAttrMd5 x).1.md5 = zeroMd5) ∧
     (∀ val, x.md5 = some val →
        (getStoredAttrMd5 x).1.md5 =
          val.take 32 ++ List.replicate (32 - val.length) '0')) := by
  obtain ⟨xs, xt, xm, xtm⟩ := x
  constructor
  · refine ⟨?_, ?_, ?_⟩
    · cases xs with
      | none =>
          have h : (getStoredAttrSha256 ⟨none, xt, xm, xtm⟩).1.sha256
              = zeroSha256 := by cases xt <;> rfl
          rw [h, zeroSha256_def, List.length_replicate]
      | some val =>
          have h : (getStoredAttrSha256 ⟨some val, xt, xm, xtm⟩).1.sha256
              = goCopy zeroSha256 val := by cases xt <;> rfl
          rw [h, zeroSha256_def]
          exact goCopy_zero_length 64 val
    · intro h; subst h; cases xt <;> rfl
    · intro val h; subst h
      have h : (getStoredAttrSha256 ⟨some val, xt, xm, xtm⟩).1.sha256
          = goCopy zeroSha256 val := by cases xt <;> rfl
      rw [h, zeroSha256_def]
      exact goCopy_zero 64 val
  · refine ⟨?_, ?_, ?_⟩
    · cases xm with
      | none =>
          have h : (getStoredAttrMd5 ⟨xs, xt, none, xtm⟩).1.md5
              = zeroMd5 := by cases xtm <;> rfl
          rw [h, zeroMd5_def, List.length_replicate]
      | some val =>
          have h : (getStoredAttrMd5 ⟨xs, xt, some val, xtm⟩).1.md5
              = goCopy zeroMd5 val := by cases xtm <;> rfl
          rw [h, zeroMd5_def]
          exact goCopy_zero_length 32 val
    · intro h; subst h; cases xtm <;> rfl
    · intro val h; subst h
      have h : (getStoredAttrMd5 ⟨xs, xt, some val, xtm⟩).1.md5
          = goCopy zeroMd5 val := by cases xtm <;> rfl
      rw [h, zeroMd5_def]
      exact goCopy_zero 32 val

/-- Witness for C10: a 10-byte stored sha256 value is padded with 54
trailing `'0'`s; a 40-byte stored md5 value is truncated to 32 bytes. -/
theorem C10_stored_digest_width_witness :
    (getStoredAttrSha256 ⟨some (List.replicate 10 'a'), none, none, none⟩).1.sha256
        = List.replicate 10 'a' ++ List.replicate 54 '0' ∧
    (getStoredAttrMd5 ⟨none, none, some (List.replicate 40 'b'), none⟩).1.md5
        = List.replicate 32 'b' := by
  constructor
  · have h := ((C10_stored_digest_width
      ⟨some (List.replicate 10 'a'), none, none, none⟩).1).2.2
      (List.replicate 10 'a') rfl
    rw [h]
    decide
  · have h := ((C10_stored_digest_width
      ⟨none, none, some (List.replicate 40 'b'), none⟩).2).2.2
      (List.replicate 40 'b') rfl
    rw [h]
    decide

/-! ## Filename checksum extraction (C6) -/

/-- `hexWindow fn i`: 32 consecutive hex digits start at position `i` of
`fn`. -/
def hexWindow (fn : List Char) (i : Nat) : Prop :=
  ((fn.drop i).take 32).length = 32 ∧ ((fn.drop i).take 32).all isHexDigit = true

/-- `findRun32` returns either the empty string (and no 32-hex window
exists anywhere) or the window at the leftmost position where 32
consecutive hex digits begin. -/
theorem findRun32_spec (fn : List Char) :
    (findRun32 fn = [] ∧ ∀ i, ¬hexWindow fn i) ∨
    (∃ i, hexWindow fn i ∧ findRun32 fn = (fn.drop i).take 32 ∧
       ∀ j, j < i → ¬hexWindow fn j) := by
  induction fn with
  | nil =>
      left
      refine ⟨rfl, ?_⟩
      intro i hi
      simp [hexWindow] at hi
  | cons c rest ih =>
      by_cases h : ((c :: rest).take 32).length = 32 ∧
          ((c :: rest).take 32).all isHexDigit = true
      · right
        refine ⟨0, h, ?_, ?_⟩
        · show findRun32 (c :: rest) = (c :: rest).take 32
          unfold findRun32
          simp only [if_pos h]
        · intro j hj; omega
      · have hf : findRun32 (c :: rest) = findRun32 rest := by
          conv_lhs => unfold findRun32
          simp only [if_neg h]
        have hshift : ∀ i, hexWindow (c :: rest) (i + 1) ↔ hexWindow rest i :=
          fun i => Iff.rfl
        rcases ih with ⟨h1, h2⟩ | ⟨i, hw, he, hmin⟩
        · left
          refine ⟨hf.trans h1, ?_⟩
          intro i
          cases i with
          | zero => exact fun hh => h hh
          | succ i => exact fun hh => h2 i ((hshift i).mp hh)
        · right
          refine ⟨i + 1, (hshift i).mpr hw, hf.trans he, ?_⟩
          intro j hj
          cases j with
          | zero => exact fun hh => h hh
          | succ j => exact fun hh => hmin j (by omega) ((hshift j).mp hh)

/-- `findFirstHex` is the first hex digit of the string, as `List.find?`
computes it. -/
theorem findFirstHex_eq_find? (cs : List Char) :
    findFirstHex cs =
      (match cs.find? isHexDigit with
       | some c => [c]
       | none => []) := by
  induction cs with
  | nil => rfl
  | cons c rest ih =>
      by_cases hc : isHexDigit c = true
      · simp [findFirstHex, hc, List.find?_cons_of_pos]
      · rw [List.find?_cons_of_neg _ hc] at *
        simpa [findFirstHex, hc] using ih

/-- Maximal runs of hex digits in a string, left to right (`acc` is the
current run, reversed). -/
def hexRunsAux : List Char → List Char → List (List Char)
  | [], acc => if acc = [] then [] else [acc.reverse]
  | c :: rest, acc =>
      if isHexDigit c then hexRunsAux rest (c :: acc)
      else if acc = [] then hexRunsAux rest []
      else acc.reverse :: hexRunsAux rest []

/-- Maximal runs of hex digits in a string, left to right. -/
def hexRuns (cs : List Char) : List (List Char) := hexRunsAux cs []

/-- Modelled from the claim's words (not from the source): "the first
maximal run of hex-digit characters of exactly 32 characters, or empty text
if none". -/
def extractSpecMd5 (fn : List Char) : List Char :=
  match (hexRuns fn).find? (fun r => r.length == 32) with
  | some r => r
  | none => []

/-- A filename containing a 33-character hex run followed by a separate
32-character hex run. -/
def fnRuns : List Char := List.replicate 33 'f' ++ '_' :: List.replicate 32 'e'

/-- Claim C6, counterexample: on `fnRuns` the first *maximal* hex run of
exactly 32 characters is the `'e'` run, but the extractor returns the first
32 characters of the longer `'f'` run — the regexp `[0-9a-fA-F]{32}`
matches at the leftmost position where 32 hex digits begin, without any
maximality requirement. -/
theorem C6_counterexample :
    extractChecksumFromFilename true fnRuns 32 = List.replicate 32 'f' ∧
    extractSpecMd5 fnRuns = List.replicate 32 'e' ∧
    extractChecksumFromFilename true fnRuns 32 ≠ extractSpecMd5 fnRuns := by
  decide

/-- The MD5-named example filename from the specification. -/
def fnIMG : List Char := "IMG_d41d8cd98f00b204e9800998ecf8427e.jpg".data

/-- Claim C6, amended: in MD5 mode the extractor returns the 32 characters
starting at the leftmost position where 32 consecutive hex digits begin
(for a hex run longer than 32, the first 32 characters of that run), or
empty text if the filename nowhere contains 32 consecutive hex digits; on
`"IMG_d41d8cd98f00b204e9800998ecf8427e.jpg"` it returns
`"d41d8cd98f00b204e9800998ecf8427e"`.  In non-MD5 mode it returns only the
first single hex character found (or empty text if none). -/
theorem C6_extract_amended :
    (∀ (bMd5 : Bool) (fn : List Char),
      ((extractChecksumFromFilename bMd5 fn 32 = [] ∧ ∀ i, ¬hexWindow fn i) ∨
       (∃ i, hexWindow fn i ∧
          extractChecksumFromFilename bMd5 fn 32 = (fn.drop i).take 32 ∧
          ∀ j, j < i → ¬hexWindow fn j)) ∧
      extractChecksumFromFilename bMd5 fn 0 =
        (match fn.find? isHexDigit with
         | some c => [c]
         | none => [])) ∧
    extractChecksumFromFilename true fnIMG 32 =
      "d41d8cd98f00b204e9800998ecf8427e".data := by
  constructor
  · intro bMd5 fn
    constructor
    · show (findRun32 fn = [] ∧ _) ∨ _
      exact findRun32_spec fn
    · show findFirstHex fn = _
      exact findFirstHex_eq_find? fn
  · decide

/-- Witness for the amended C6: the single-hex-character mode evaluated on
the example filename (first hex digit of `"IMG_d41..."` is `'d'`). -/
theorem C6_extract_amended_witness :
    extractChecksumFromFilename true fnIMG 0 =
      (match fnIMG.find? isHexDigit with
       | some c => [c]
       | none => []) :=
  (C6_extract_amended.1 true fnIMG).2

/-! ## Path lemmas for `checkFile` -/

theorem finishStore_verdict (v : Verdict) (st : Stats) (se : Bool) :
    (finishStore v st se).verdict = v := by
  cases se <;> rfl

theorem finishStore_storeAttempted (v : Verdict) (st : Stats) (se : Bool) :
    (finishStore v st se).storeAttempted = true := by
  cases se <;> rfl

theorem finishStore_storeFailed (v : Verdict) (st : Stats) (se : Bool) :
    (finishStore v st se).storeFailed = se := by
  cases se <;> rfl

theorem finishStore_errW (v : Verdict) (st : Stats) (se : Bool) :
    (finishStore v st se).stats.errorsWritingXattr =
      if se then 1 else st.errorsWritingXattr := by
  cases se <;> rfl

theorem finishStore_computedActual (v : Verdict) (st : Stats) (se : Bool) :
    (finishStore v st se).computedActual = true := by
  cases se <;> rfl

theorem checkFile_normal (bMd5 : Bool) (fn : List Char) (flags : Flags)
    (env : CheckEnv) (hopen : env.openErr = false) (hrm : flags.remove = false)
    (hfo : flags.onlyFilename = false)
    (herr : (getActualAttr bMd5 env.fileEnv).2 = none) :
    checkFile bMd5 fn flags env =
      (let st0 := { zeroStats with total := 1 }
       let stored := (getStoredAttr bMd5 env.xattrs).1
       let actual := (getActualAttr bMd5 env.fileEnv).1
       if timesMatch bMd5 stored actual then
         if checksumsMatch bMd5 stored actual then
           if flags.checkFilename ∧ ¬checkFilename bMd5 fn actual then
             { verdict := Verdict.filenameNotMatched, stats := st0,
               computedActual := true, storeAttempted := false,
               storeFailed := false }
           else
             { verdict := Verdict.ok, stats := { st0 with ok := 1 },
               computedActual := true, storeAttempted := false,
               storeFailed := false }
         else
           finishStore Verdict.corrupt { st0 with corrupt := 1 } env.storeErr
       else if checksumsMatch bMd5 stored actual then
         finishStore Verdict.timechange { st0 with timechange := 1 }
           env.storeErr
       else if bytesMatchZero bMd5 stored ∧ timesMatchZero bMd5 stored then
         finishStore Verdict.newfile { st0 with newfile := 1 } env.storeErr
       else
         finishStore Verdict.outdated { st0 with outdated := 1 }
           env.storeErr) := by
  unfold checkFile
  simp only [hopen, hrm, hfo, Bool.false_eq_true, if_false, herr]

theorem checkFile_einprogress (bMd5 : Bool) (fn : List Char) (flags : Flags)
    (env : CheckEnv) (hopen : env.openErr = false) (hrm : flags.remove = false)
    (hfo : flags.onlyFilename = false)
    (herr : (getActualAttr bMd5 env.fileEnv).2 = some GoErr.einprogress) :
    checkFile bMd5 fn flags env =
      { verdict := Verdict.concurrentModification,
        stats := { zeroStats with total := 1, inprogress := 1 },
        computedActual := true, storeAttempted := false,
        storeFailed := false } := by
  unfold checkFile
  simp only [hopen, hrm, hfo, Bool.false_eq_true, if_false, herr]

theorem checkFile_readerror (bMd5 : Bool) (fn : List Char) (flags : Flags)
    (env : CheckEnv) (hopen : env.openErr = false) (hrm : flags.remove = false)
    (hfo : flags.onlyFilename = false)
    (herr : (getActualAttr bMd5 env.fileEnv).2 = some GoErr.other) :
    checkFile bMd5 fn flags env =
      { verdict := Verdict.readError,
        stats := { zeroStats with total := 1, errorsOther := 1 },
        computedActual := true, storeAttempted := false,
        storeFailed := false } := by
  unfold checkFile
  simp only [hopen, hrm, hfo, Bool.false_eq_true, if_false, herr]

theorem checkFile_filenameOnly (bMd5 : Bool) (fn : List Char) (flags : Flags)
    (env : CheckEnv) (hopen : env.openErr = false) (hrm : flags.remove = false)
    (hfo : flags.onlyFilename = true) :
    checkFile bMd5 fn flags env =
      (if checkFilename bMd5 fn (getStoredAttr bMd5 env.xattrs).1 then
        { verdict := Verdict.filenameOnlyOk,
          stats := { zeroStats with total := 1 },
          computedActual := false, storeAttempted := false,
          storeFailed := false }
      else
        { verdict := Verdict.filenameOnlyMismatch,
          stats := { zeroStats with total := 1 },
          computedActual := false, storeAttempted := false,
          storeFailed := false }) := by
  unfold checkFile
  simp only [hopen, hrm, hfo, Bool.false_eq_true, if_false, if_true]

theorem checkFile_openError (bMd5 : Bool) (fn : List Char) (flags : Flags)
    (env : CheckEnv) (hopen : env.openErr = true) :
    checkFile bMd5 fn flags env =
      { verdict := Verdict.openError,
        stats := { zeroStats with total := 1, errorsOpening := 1 },
        computedActual := false, storeAttempted := false,
        storeFailed := false } := by
  unfold checkFile
  simp only [hopen, if_true]

theorem getActualAttrSha256_concurrent (fe : FileEnv)
    (h1 : fe.statErr1 = false) (h2 : fe.readErr = false)
    (h3 : fe.statErr2 = false) (hne : fe.mtime1 ≠ fe.mtime2) :
    getActualAttrSha256 fe =
      ({ emptyFileAttr with sha256 := zeroSha256, ts := fe.mtime1 },
        some GoErr.einprogress) := by
  unfold getActualAttrSha256
  simp only [h1, h2, h3, Bool.false_eq_true, if_false]
  rw [if_pos hne]

theorem getActualAttrMd5_concurrent (fe : FileEnv)
    (h1 : fe.statErr1 = false) (h2 : fe.readErr = false)
    (h3 : fe.statErr2 = false) (hne : fe.mtime1 ≠ fe.mtime2) :
    getActualAttrMd5 fe =
      ({ emptyFileAttr with md5 := zeroMd5, tsMd5 := fe.mtime1 },
        some GoErr.einprogress) := by
  unfold getActualAttrMd5
  simp only [h1, h2, h3, Bool.false_eq_true, if_false]
  rw [if_pos hne]

/-- Claim C1: in normal mode (remove off, filenameOnly off, and no filename
verification overlay), when actual attributes were computed successfully the
classification is decided by exactly the stored-vs-actual truth table over
the selected algorithm's fields: both match gives Ok; timestamps match and
digests differ gives Corrupt; timestamps differ and digests match gives
TimeChanged; both differ with zero stored digest and zero stored timestamp
gives New; every remaining case gives Outdated.  The five outcomes are
mutually exclusive and exhaustive. -/
theorem C1_classification_truth_table (bMd5 : Bool) (fn : List Char)
    (flags : Flags) (env : CheckEnv)
    (hopen : env.openErr = false) (hrm : flags.remove = false)
    (hfo : flags.onlyFilename = false) (hcf : flags.checkFilename = false)
    (herr : (getActualAttr bMd5 env.fileEnv).2 = none) :
    ((checkFile bMd5 fn flags env).verdict = Verdict.ok ↔
      (timesMatch bMd5 (getStoredAttr bMd5 env.xattrs).1
          (getActualAttr bMd5 env.fileEnv).1 = true ∧
       checksumsMatch bMd5 (getStoredAttr bMd5 env.xattrs).1
          (getActualAttr bMd5 env.fileEnv).1 = true)) ∧
    ((checkFile bMd5 fn flags env).verdict = Verdict.corrupt ↔
      (timesMatch bMd5 (getStoredAttr bMd5 env.xattrs).1
          (getActualAttr bMd5 env.fileEnv).1 = true ∧
       checksumsMatch bMd5 (getStoredAttr bMd5 env.xattrs).1
          (getActualAttr bMd5 env.fileEnv).1 = false)) ∧
    ((checkFile bMd5 fn flags env).verdict = Verdict.timechange ↔
      (timesMatch bMd5 (getStoredAttr bMd5 env.xattrs).1
          (getActualAttr bMd5 env.fileEnv).1 = false ∧
       checksumsMatch bMd5 (getStoredAttr bMd5 env.xattrs).1
          (getActualAttr bMd5 env.fileEnv).1 = true)) ∧
    ((checkFile bMd5 fn flags env).verdict = Verdict.newfile ↔
      (timesMatch bMd5 (getStoredAttr bMd5 env.xattrs).1
          (getActualAttr bMd5 env.fileEnv).1 = false ∧
       checksumsMatch bMd5 (getStoredAttr bMd5 env.xattrs).1
          (getActualAttr bMd5 env.fileEnv).1 = false ∧
       bytesMatchZero bMd5 (getStoredAttr bMd5 env.xattrs).1 = true ∧
       timesMatchZero bMd5 (getStoredAttr bMd5 env.xattrs).1 = true)) ∧
    ((checkFile bMd5 fn flags env).verdict = Verdict.outdated ↔
      (timesMatch bMd5 (getStoredAttr bMd5 env.xattrs).1
          (getActualAttr bMd5 env.fileEnv).1 = false ∧
       checksumsMatch bMd5 (getStoredAttr bMd5 env.xattrs).1
          (getActualAttr bMd5 env.fileEnv).1 = false ∧
       ¬(bytesMatchZero bMd5 (getStoredAttr bMd5 env.xattrs).1 = true ∧
         timesMatchZero bMd5 (getStoredAttr bMd5 env.xattrs).1 = true))) ∧
    ((checkFile bMd5 fn flags env).verdict = Verdict.ok ∨
     (checkFile bMd5 fn flags env).verdict = Verdict.corrupt ∨
     (checkFile bMd5 fn flags env).verdict = Verdict.timechange ∨
     (checkFile bMd5 fn flags env).verdict = Verdict.newfile ∨
     (checkFile bMd5 fn flags env).verdict = Verdict.outdated) := by
  rw [checkFile_normal bMd5 fn flags env hopen hrm hfo herr]
  simp only [hcf, Bool.false_eq_true, false_and, not_false_eq_true, if_false]
  cases htm : timesMatch bMd5 (getStoredAttr bMd5 env.xattrs).1
      (getActualAttr bMd5 env.fileEnv).1 <;>
    cases hcm : checksumsMatch bMd5 (getStoredAttr bMd5 env.xattrs).1
        (getActualAttr bMd5 env.fileEnv).1 <;>
      cases hbz : bytesMatchZero bMd5 (getStoredAttr bMd5 env.xattrs).1 <;>
        cases htz : timesMatchZero bMd5 (getStoredAttr bMd5 env.xattrs).1 <;>
          simp_all [finishStore_verdict]

/-- The driver flags of a default run: remove off, filenameOnly off,
verifyFilename off. -/
def flagsW : Flags := ⟨false, false, false⟩

/-- A quiescent file environment: equal mtime samples, a non-zero content
hash, no I/O errors. -/
def feW : FileEnv :=
  ⟨⟨5, 0⟩, ⟨5, 0⟩, List.replicate 64 'a', List.replicate 32 'a',
    false, false, false⟩

/-- A check environment over `feW` with no stored attributes and no
failures. -/
def envW : CheckEnv := ⟨false, xNone, feW, false, false⟩

/-- Witness for C1: with no stored metadata and a fresh mtime/content, the
verdict is New. -/
theorem C1_classification_truth_table_witness :
    (getActualAttr false envW.fileEnv).2 = none ∧
    (checkFile false [] flagsW envW).verdict = Verdict.newfile := by
  have h := C1_classification_truth_table false [] flagsW envW
    rfl rfl rfl rfl (by decide)
  exact ⟨by decide, (h.2.2.2.1).mpr ⟨by decide, by decide, by decide, by decide⟩⟩

/-- Claim C2: when the mtime observed after streaming differs from the
mtime observed before streaming (and the individual I/O steps themselves
succeeded), computing actual attributes returns the EINPROGRESS
(ConcurrentModification) outcome, the returned attribute record still
carries the zero digest of the selected algorithm, and the per-file check
classifies the file as concurrently modified, performing no attribute
write. -/
theorem C2_concurrent_modification (bMd5 : Bool) (fn : List Char)
    (flags : Flags) (env : CheckEnv)
    (h1 : env.fileEnv.statErr1 = false) (h2 : env.fileEnv.readErr = false)
    (h3 : env.fileEnv.statErr2 = false)
    (hne : env.fileEnv.mtime1 ≠ env.fileEnv.mtime2)
    (hopen : env.openErr = false) (hrm : flags.remove = false)
    (hfo : flags.onlyFilename = false) :
    (getActualAttr bMd5 env.fileEnv).2 = some GoErr.einprogress ∧
    (if bMd5 then (getActualAttr bMd5 env.fileEnv).1.md5 = zeroMd5
     else (getActualAttr bMd5 env.fileEnv).1.sha256 = zeroSha256) ∧
    (checkFile bMd5 fn flags env).verdict = Verdict.concurrentModification ∧
    (checkFile bMd5 fn flags env).storeAttempted = false ∧
    (checkFile bMd5 fn flags env).stats.inprogress = 1 := by
  have hact : (getActualAttr bMd5 env.fileEnv).2 = some GoErr.einprogress ∧
      (if bMd5 then (getActualAttr bMd5 env.fileEnv).1.md5 = zeroMd5
       else (getActualAttr bMd5 env.fileEnv).1.sha256 = zeroSha256) := by
    cases bMd5 with
    | false =>
        have h := getActualAttrSha256_concurrent env.fileEnv h1 h2 h3 hne
        constructor
        · show (getActualAttrSha256 env.fileEnv).2 = some GoErr.einprogress
          rw [h]
        · show (getActualAttrSha256 env.fileEnv).1.sha256 = zeroSha256
          rw [h]
    | true =>
        have h := getActualAttrMd5_concurrent env.fileEnv h1 h2 h3 hne
        constructor
        · show (getActualAttrMd5 env.fileEnv).2 = some GoErr.einprogress
          rw [h]
        · show (getActualAttrMd5 env.fileEnv).1.md5 = zeroMd5
          rw [h]
  have hcf := checkFile_einprogress bMd5 fn flags env hopen hrm hfo hact.1
  refine ⟨hact.1, hact.2, ?_, ?_, ?_⟩ <;> rw [hcf]

/-- A file environment whose mtime changes while the content is streamed. -/
def feW2 : FileEnv := ⟨⟨0, 0⟩, ⟨0, 1⟩, [], [], false, false, false⟩

/-- A check environment over `feW2`. -/
def envW2 : CheckEnv := ⟨false, xNone, feW2, false, false⟩

/-- Witness for C2 at a concrete torn read. -/
theorem C2_concurrent_modification_witness :
    feW2.mtime1 ≠ feW2.mtime2 ∧
    (getActualAttr false feW2).2 = some GoErr.einprogress ∧
    (checkFile false [] flagsW envW2).verdict =
      Verdict.concurrentModification := by
  have h := C2_concurrent_modification false [] flagsW envW2
    rfl rfl rfl (by decide) rfl rfl rfl
  exact ⟨by decide, h.1, h.2.2.1⟩

/-- Claim C8: when stored and actual timestamps and digests all match and
the verifyFilename flag is set, a filename checksum that does not match the
actual digest demotes the verdict from Ok to FilenameNotMatched: the ok
counter is not incremented and no attribute write occurs. -/
theorem C8_verify_filename_demotes (bMd5 : Bool) (fn : List Char)
    (flags : Flags) (env : CheckEnv)
    (hopen : env.openErr = false) (hrm : flags.remove = false)
    (hfo : flags.onlyFilename = false)
    (herr : (getActualAttr bMd5 env.fileEnv).2 = none)
    (htm : timesMatch bMd5 (getStoredAttr bMd5 env.xattrs).1
        (getActualAttr bMd5 env.fileEnv).1 = true)
    (hcm : checksumsMatch bMd5 (getStoredAttr bMd5 env.xattrs).1
        (getActualAttr bMd5 env.fileEnv).1 = true)
    (hvf : flags.checkFilename = true)
    (hfn : checkFilename bMd5 fn (getActualAttr bMd5 env.fileEnv).1 = false) :
    (checkFile bMd5 fn flags env).verdict = Verdict.filenameNotMatched ∧
    (checkFile bMd5 fn flags env).stats.ok = 0 ∧
    (checkFile bMd5 fn flags env).storeAttempted = false := by
  rw [checkFile_normal bMd5 fn flags env hopen hrm hfo herr]
  simp only [htm, hcm, hvf, hfn, Bool.false_eq_true, not_false_eq_true,
    and_self, if_true, true_and]
  trivial

/-- The driver flags with filename verification on. -/
def flagsVF : Flags := ⟨false, false, true⟩

/-- A file environment whose content hashes to the zero digests with a zero
mtime, so that it matches an absent stored record exactly. -/
def feW8 : FileEnv := ⟨⟨0, 0⟩, ⟨0, 0⟩, zeroSha256, zeroMd5, false, false, false⟩

/-- A check environment over `feW8`. -/
def envW8 : CheckEnv := ⟨false, xNone, feW8, false, false⟩

/-- Witness for C8 at a concrete demotion. -/
theorem C8_verify_filename_demotes_witness :
    (checkFile false [] flagsVF envW8).verdict = Verdict.filenameNotMatched ∧
    (checkFile false [] flagsVF envW8).stats.ok = 0 := by
  have h := C8_verify_filename_demotes false [] flagsVF envW8
    rfl rfl rfl (by decide) (by decide) (by decide) rfl (by decide)
  exact ⟨h.1, h.2.1⟩

/-- Claim C3: in normal mode the attribute store operation is attempted if
and only if the classification is Corrupt, TimeChanged, New or Outdated; a
store failure is counted in `errorsWritingXattr` and marks the result
failed without changing the already-decided classification (the verdict
equals the verdict of the same check with a succeeding store). -/
theorem C3_store_iff (bMd5 : Bool) (fn : List Char) (flags : Flags)
    (env : CheckEnv) (hrm : flags.remove = false)
    (hfo : flags.onlyFilename = false) :
    ((checkFile bMd5 fn flags env).storeAttempted = true ↔
      ((checkFile bMd5 fn flags env).verdict = Verdict.corrupt ∨
       (checkFile bMd5 fn flags env).verdict = Verdict.timechange ∨
       (checkFile bMd5 fn flags env).verdict = Verdict.newfile ∨
       (checkFile bMd5 fn flags env).verdict = Verdict.outdated)) ∧
    ((checkFile bMd5 fn flags { env with storeErr := false }).verdict =
      (checkFile bMd5 fn flags env).verdict) ∧
    ((checkFile bMd5 fn flags env).storeAttempted = true →
      env.storeErr = true →
      (checkFile bMd5 fn flags env).storeFailed = true ∧
      (checkFile bMd5 fn flags env).stats.errorsWritingXattr = 1) ∧
    ((checkFile bMd5 fn flags env).storeAttempted = false →
      (checkFile bMd5 fn flags env).stats.errorsWritingXattr = 0) := by
  by_cases hopen : env.openErr = true
  · rw [checkFile_openError bMd5 fn flags env hopen,
      checkFile_openError bMd5 fn flags { env with storeErr := false } hopen]
    simp [zeroStats]
  · have hopen1 : env.openErr = false := by simpa using hopen
    cases herr : (getActualAttr bMd5 env.fileEnv).2 with
    | some e =>
        cases e with
        | einprogress =>
            rw [checkFile_einprogress bMd5 fn flags env hopen1 hrm hfo herr,
              checkFile_einprogress bMd5 fn flags { env with storeErr := false }
                hopen1 hrm hfo herr]
            simp [zeroStats]
        | other =>
            rw [checkFile_readerror bMd5 fn flags env hopen1 hrm hfo herr,
              checkFile_readerror bMd5 fn flags { env with storeErr := false }
                hopen1 hrm hfo herr]
            simp [zeroStats]
    | none =>
        rw [checkFile_normal bMd5 fn flags env hopen1 hrm hfo herr,
          checkFile_normal bMd5 fn flags { env with storeErr := false }
            hopen1 hrm hfo herr]
        dsimp only
        cases htm : timesMatch bMd5 (getStoredAttr bMd5 env.xattrs).1
            (getActualAttr bMd5 env.fileEnv).1 <;>
          cases hcm : checksumsMatch bMd5 (getStoredAttr bMd5 env.xattrs).1
              (getActualAttr bMd5 env.fileEnv).1 <;>
            cases hbz : bytesMatchZero bMd5 (getStoredAttr bMd5 env.xattrs).1 <;>
              cases htz : timesMatchZero bMd5 (getStoredAttr bMd5 env.xattrs).1 <;>
                cases hck : flags.checkFilename <;>
                  cases hcfn : checkFilename bMd5 fn
                      (getActualAttr bMd5 env.fileEnv).1 <;>
                    cases hse : env.storeErr <;>
                      simp_all [finishStore, zeroStats]

/-- A check environment identical to `envW` except that the attribute
write fails. -/
def envSE : CheckEnv := ⟨false, xNone, feW, false, true⟩

/-- Witness for C3: a New file whose attribute write fails keeps the New
verdict and counts one write error. -/
theorem C3_store_iff_witness :
    (checkFile false [] flagsW envSE).storeAttempted = true ∧
    (checkFile false [] flagsW envSE).stats.errorsWritingXattr = 1 ∧
    (checkFile false [] flagsW { envSE with storeErr := false }).verdict =
      (checkFile false [] flagsW envSE).verdict := by
  have h := C3_store_iff false [] flagsW envSE rfl rfl
  have hs : (checkFile false [] flagsW envSE).storeAttempted = true :=
    (h.1).mpr (Or.inr (Or.inr (Or.inl (by decide))))
  exact ⟨hs, (h.2.2.1 hs rfl).2, h.2.1⟩

theorem checkFilename_eq (bMd5 : Bool) (fn : List Char) (a : fileAttr) :
    checkFilename bMd5 fn a = true ↔
      extractChecksumFromFilename bMd5 (basename fn)
          (if bMd5 then 32 else 0) =
        (if bMd5 then a.md5 else a.sha256) := by
  cases bMd5 with
  | false =>
      by_cases h : extractChecksumFromFilename false (basename fn) 0 = a.sha256 <;>
        simp [checkFilename, h]
  | true =>
      by_cases h : extractChecksumFromFilename true (basename fn) 32 = a.md5 <;>
        simp [checkFilename, h]

/-- Claim C7: with the filenameOnly flag set (remove off) the check never
computes the actual digest and never writes attributes; the verdict is
FilenameOnly-Ok exactly when the filename-extracted checksum equals the
stored digest of the selected algorithm, and FilenameOnly-Mismatch exactly
otherwise. -/
theorem C7_filename_only (bMd5 : Bool) (fn : List Char) (flags : Flags)
    (env : CheckEnv) (hrm : flags.remove = false)
    (hfo : flags.onlyFilename = true) (hopen : env.openErr = false) :
    (checkFile bMd5 fn flags env).computedActual = false ∧
    (checkFile bMd5 fn flags env).storeAttempted = false ∧
    ((checkFile bMd5 fn flags env).verdict = Verdict.filenameOnlyOk ↔
      extractChecksumFromFilename bMd5 (basename fn)
          (if bMd5 then 32 else 0) =
        (if bMd5 then (getStoredAttr bMd5 env.xattrs).1.md5
         else (getStoredAttr bMd5 env.xattrs).1.sha256)) ∧
    ((checkFile bMd5 fn flags env).verdict = Verdict.filenameOnlyMismatch ↔
      ¬(extractChecksumFromFilename bMd5 (basename fn)
          (if bMd5 then 32 else 0) =
        (if bMd5 then (getStoredAttr bMd5 env.xattrs).1.md5
         else (getStoredAttr bMd5 env.xattrs).1.sha256))) ∧
    ((checkFile bMd5 fn flags env).verdict = Verdict.filenameOnlyOk ∨
     (checkFile bMd5 fn flags env).verdict = Verdict.filenameOnlyMismatch) := by
  rw [checkFile_filenameOnly bMd5 fn flags env hopen hrm hfo,
    ← checkFilename_eq bMd5 fn (getStoredAttr bMd5 env.xattrs).1]
  cases hcf : checkFilename bMd5 fn (getStoredAttr bMd5 env.xattrs).1 <;>
    simp [hcf]

/-- The driver flags of a filename-only run. -/
def flagsFO : Flags := ⟨false, true, false⟩

/-- Witness for C7: an empty path extracts no checksum, so the verdict is
FilenameOnly-Mismatch against the stored zero digest, with no hashing. -/
theorem C7_filename_only_witness :
    (checkFile false [] flagsFO envW).computedActual = false ∧
    (checkFile false [] flagsFO envW).verdict =
      Verdict.filenameOnlyMismatch := by
  have h := C7_filename_only false [] flagsFO envW rfl rfl rfl
  exact ⟨h.1, (h.2.2.2.1).mpr (by decide)⟩

theorem getStoredAttrSha256_congr (x1 x2 : XattrState)
    (h1 : x1.sha256 = x2.sha256) (h2 : x1.tsSha256 = x2.tsSha256) :
    getStoredAttrSha256 x1 = getStoredAttrSha256 x2 := by
  obtain ⟨a1, b1, c1, d1⟩ := x1
  obtain ⟨a2, b2, c2, d2⟩ := x2
  dsimp only at h1 h2
  subst h1; subst h2
  rfl

theorem getStoredAttrMd5_congr (x1 x2 : XattrState)
    (h1 : x1.md5 = x2.md5) (h2 : x1.tsMd5 = x2.tsMd5) :
    getStoredAttrMd5 x1 = getStoredAttrMd5 x2 := by
  obtain ⟨a1, b1, c1, d1⟩ := x1
  obtain ⟨a2, b2, c2, d2⟩ := x2
  dsimp only at h1 h2
  subst h1; subst h2
  rfl

/-- Claim C9: algorithm isolation as a two-run noninterference property.
A SHA-256 check reads only the SHA-256 attribute pair, so two runs whose
xattr states agree on the SHA-256 attributes (and share everything else)
produce identical results, whatever the MD5 attributes are; and
symmetrically for MD5 checks with respect to the SHA-256 attributes. -/
theorem C9_algorithm_isolation (fn : List Char) (flags : Flags) (o : Bool)
    (fe : FileEnv) (re se : Bool) (x1 x2 : XattrState) :
    (x1.sha256 = x2.sha256 → x1.tsSha256 = x2.tsSha256 →
      checkFile false fn flags ⟨o, x1, fe, re, se⟩ =
        checkFile false fn flags ⟨o, x2, fe, re, se⟩) ∧
    (x1.md5 = x2.md5 → x1.tsMd5 = x2.tsMd5 →
      checkFile true fn flags ⟨o, x1, fe, re, se⟩ =
        checkFile true fn flags ⟨o, x2, fe, re, se⟩) := by
  constructor
  · intro h1 h2
    have hs : getStoredAttr false x1 = getStoredAttr false x2 :=
      getStoredAttrSha256_congr x1 x2 h1 h2
    unfold checkFile
    dsimp only
    rw [hs]
  · intro h1 h2
    have hs : getStoredAttr true x1 = getStoredAttr true x2 :=
      getStoredAttrMd5_congr x1 x2 h1 h2
    unfold checkFile
    dsimp only
    rw [hs]

/-- An xattr state carrying only MD5-namespace attributes. -/
def xMd5Only : XattrState :=
  ⟨none, none, some (List.replicate 32 'c'), some "12.5".data⟩

/-- Witness for C9: adding MD5 attributes does not change a SHA-256 run. -/
theorem C9_algorithm_isolation_witness :
    checkFile false [] flagsW ⟨false, xNone, feW, false, false⟩ =
      checkFile false [] flagsW ⟨false, xMd5Only, feW, false, false⟩ :=
  (C9_algorithm_isolation [] flagsW false feW false false xNone xMd5Only).1
    rfl rfl

end CshatagMd5
